import Mathlib

/-!
Shallow embedding of `src/app.py` (Anky597/backend_rag): a Flask proxy that
forwards a user question to a remote Gradio prediction service.

Modelling decisions:
* JSON values are the inductive `Json`; a Flask response is a body plus a
  numeric status code.
* The global `gradio_client` (set once at startup, `None` on failure) is an
  `Option GradioClient` passed to every handler.
* The remote call `gradio_client.predict(user_question=..., api_name=...)`
  is an oracle `PredictOracle`; `Except.error e` models the call raising an
  exception whose text is `e`.  Each handler additionally returns the list
  of calls it issued to the oracle, so that "the remote call is never
  attempted" is the statement that this list is empty.
* Python exceptions that escape a handler are `Except.error` values of
  `PyExn`; `flaskDispatch` models Flask turning an uncaught exception into
  a 500 response and an `HTTPException` such as `BadRequest` into its own
  400 response.
-/

namespace BackendRag

/-- Remote Space identifier; env var `HF_GRADIO_API_SPACE` with this default
(`app.py` line 11). -/
def HF_GRADIO_API_SPACE : String := "Ankys/shl-recommender-api"

/-- Remote endpoint path; env var `API_ENDPOINT` with this default
(`app.py` line 12). -/
def API_ENDPOINT : String := "/predict"

/-- JSON values, as produced by parsing a request body and by the remote
service. -/
inductive Json where
  | null : Json
  | bool (b : Bool) : Json
  | num (n : Int) : Json
  | str (s : String) : Json
  | arr (elts : List Json) : Json
  | obj (kvs : List (String × Json)) : Json
deriving Repr

/-- The object constructed by `Client(space)` / `Client(space, hf_token)`
(`app.py` lines 37 and 40).  Its contents are irrelevant to the handlers;
only its presence (truthiness of the global) matters. -/
structure GradioClient where
  space : String
  hf_token : Option String
deriving Repr, DecidableEq

/-- A Flask response: JSON body plus HTTP status code.  `jsonify(x)` alone
is status 200; `jsonify(x), code` sets the code explicitly. -/
structure Response where
  body : Json
  code : Nat
deriving Repr

/-- Models `jsonify(x)` returned without an explicit status code. -/
def jsonify (j : Json) : Response :=
  { body := j, code := 200 }

/-- Body `status = "error", message = msg`, as built by
`jsonify(\x7b"status": "error", "message": msg\x7d)` in `app.py`. -/
def errBody (msg : String) : Json :=
  Json.obj [("status", Json.str "error"), ("message", Json.str msg)]

/-- Python exceptions that can escape a handler in `app.py`:
`AttributeError` from `data.get` when the parsed JSON body is not a dict
(line 68), and Flask raising `BadRequest` from `request.get_json()` when
the body has a JSON content type but does not parse (line 67). -/
inductive PyExn where
  | attributeError : PyExn
  | badRequest : PyExn
deriving Repr, DecidableEq

/-- One invocation of `gradio_client.predict(user_question=..., api_name=...)`
(`app.py` lines 117-120). -/
structure GradioCall where
  user_question : Json
  api_name : String
deriving Repr

/-- The environment of the remote service: what each predict call returns,
or the text of the exception it raises. -/
def PredictOracle : Type :=
  GradioCall → Except String Json

/-- Last binding of `key` in an association list.  Python builds a dict
from a JSON object, so a duplicated key keeps its last value. -/
def lookupLast (kvs : List (String × Json)) (key : String) : Option Json :=
  match kvs with
  | [] => none
  | (k, v) :: rest =>
    match lookupLast rest key with
    | some w => some w
    | none => if k = key then some v else none

/-- Models `data.get(key)` on the value returned by `request.get_json()`
(`app.py` line 68).  Python parses JSON `null` to `None`, so a key mapped
to `null` is indistinguishable from a missing key; on a non-object (list,
string, number, bool, or `null` body) `.get` raises `AttributeError`. -/
def dictGet (data : Json) (key : String) : Except PyExn (Option Json) :=
  match data with
  | Json.obj kvs =>
    match lookupLast kvs key with
    | some Json.null => Except.ok none
    | some v => Except.ok (some v)
    | none => Except.ok none
  | _ => Except.error PyExn.attributeError

/-- The 503 message used at `app.py` lines 61, 88 and 110. -/
def clientUnavailableMsg : String :=
  "Backend Gradio client not initialized or unavailable."

/-- The fixed 502 message of `app.py` line 135 (an f-string with no
interpolated fields). -/
def gradioFailureMsg : String :=
  "Failed to get prediction from underlying Gradio API. Please check logs or try again later."

/-- The 400 message for a non-JSON POST body (`app.py` line 65). -/
def mustBeJsonMsg : String :=
  "Request body must be JSON for POST requests."

/-- The 400 message for a POST body without the key (`app.py` line 72). -/
def missingKeyMsg : String :=
  "Missing \x27user_question\x27 key in JSON body for POST requests."

/-- The 400 message for a GET without the query parameter (`app.py`
line 95). -/
def missingParamMsg : String :=
  "Missing \x27user_question\x27 query parameter for GET requests."

/-- Embeds `_process_question` (`app.py` lines 100-135): re-checks the
client, calls predict, wraps success as a 200 envelope and any exception
as the fixed 502 envelope.  The second component lists the predict calls
issued. -/
def _process_question (predict : PredictOracle) (gradio_client : Option GradioClient)
    (user_question : Json) : Response × List GradioCall :=
  if gradio_client.isNone then
    ({ body := errBody clientUnavailableMsg, code := 503 }, [])
  else
    let call : GradioCall := { user_question := user_question, api_name := API_ENDPOINT }
    match predict call with
    | Except.ok result =>
      (jsonify (Json.obj [("status", Json.str "success"), ("result", result)]), [call])
    | Except.error _ =>
      ({ body := errBody gradioFailureMsg, code := 502 }, [call])

/-- The body of a POST request as the handler observes it:
`notJson` models `request.is_json` being false (content type not JSON);
`malformedJson` models a JSON content type whose payload fails to parse,
so `request.get_json()` raises `BadRequest`;
`jsonBody data` models a successfully parsed body. -/
inductive PostBody where
  | notJson : PostBody
  | malformedJson : PostBody
  | jsonBody (data : Json) : PostBody

/-- Embeds `ask_sync` (`app.py` lines 50-75), the POST `/ask` handler:
client check, then `is_json` check, then `get_json` and `data.get`,
then delegation to `_process_question`.  An `Except.error` first component
is an exception escaping the handler. -/
def ask_sync (predict : PredictOracle) (gradio_client : Option GradioClient)
    (body : PostBody) : Except PyExn Response × List GradioCall :=
  if gradio_client.isNone then
    (Except.ok { body := errBody clientUnavailableMsg, code := 503 }, [])
  else
    match body with
    | PostBody.notJson =>
      (Except.ok { body := errBody mustBeJsonMsg, code := 400 }, [])
    | PostBody.malformedJson =>
      (Except.error PyExn.badRequest, [])
    | PostBody.jsonBody data =>
      match dictGet data "user_question" with
      | Except.error e => (Except.error e, [])
      | Except.ok none =>
        (Except.ok { body := errBody missingKeyMsg, code := 400 }, [])
      | Except.ok (some user_question) =>
        (Except.ok (_process_question predict gradio_client user_question).1,
         (_process_question predict gradio_client user_question).2)

/-- Embeds `ask_get` (`app.py` lines 77-98), the GET `/ask` handler:
client check, then `request.args.get` (first value of the query parameter),
then delegation to `_process_question`.  Query parameter values are
strings, forwarded as JSON strings. -/
def ask_get (predict : PredictOracle) (gradio_client : Option GradioClient)
    (args : List (String × String)) : Response × List GradioCall :=
  if gradio_client.isNone then
    ({ body := errBody clientUnavailableMsg, code := 503 }, [])
  else
    match args.lookup "user_question" with
    | none =>
      ({ body := errBody missingParamMsg, code := 400 }, [])
    | some user_question =>
      _process_question predict gradio_client (Json.str user_question)

/-- Embeds `health_check` (`app.py` lines 137-146).  It issues no predict
call, hence the empty call list. -/
def health_check (gradio_client : Option GradioClient) : Response × List GradioCall :=
  if gradio_client.isSome then
    (jsonify (Json.obj [("status", Json.str "ok"), ("gradio_client_status", Json.str "initialized")]), [])
  else
    ({ body := Json.obj [("status", Json.str "error"), ("gradio_client_status", Json.str "not_initialized")], code := 503 }, [])

/-- Models Flask turning a handler outcome into the wire response: a value
returned normally passes through; an uncaught `HTTPException` such as
`BadRequest` becomes its own 400 response and any other uncaught exception
becomes a generic 500.  Flask renders those two bodies as HTML, modelled
here as opaque strings. -/
def flaskDispatch (outcome : Except PyExn Response) : Response :=
  match outcome with
  | Except.ok resp => resp
  | Except.error PyExn.badRequest => { body := Json.str "400 Bad Request", code := 400 }
  | Except.error PyExn.attributeError => { body := Json.str "500 Internal Server Error", code := 500 }

/-- An inbound request to the app: POST `/ask`, GET `/ask`, or GET
`/health`. -/
inductive Request where
  | post (body : PostBody) : Request
  | getAsk (args : List (String × String)) : Request
  | health : Request

/-- One request-response cycle of the app.  The state threaded through is
the global `gradio_client`; no handler in `app.py` assigns to it, so each
branch returns it unchanged. -/
def handle (predict : PredictOracle) (gradio_client : Option GradioClient)
    (req : Request) : Response × Option GradioClient :=
  match req with
  | Request.post body => (flaskDispatch (ask_sync predict gradio_client body).1, gradio_client)
  | Request.getAsk args => ((ask_get predict gradio_client args).1, gradio_client)
  | Request.health => ((health_check gradio_client).1, gradio_client)

/-- The global state after serving a sequence of requests. -/
def runRequests (predict : PredictOracle) (gradio_client : Option GradioClient) :
    List Request → Option GradioClient
  | [] => gradio_client
  | req :: rest => runRequests predict (handle predict gradio_client req).2 rest

/-- C1: for every question string, when the client is initialized and the
remote prediction call succeeds with value `R`, both the POST and the GET
`/ask` handler return HTTP 200 with body having `status = "success"` and
`result = R`, the remote value exactly and unmodified. -/
theorem ask_success_returns_remote_result (predict : PredictOracle) (gc : GradioClient)
    (q : String) (R : Json)
    (hp : predict { user_question := Json.str q, api_name := API_ENDPOINT } = Except.ok R) :
    (ask_sync predict (some gc) (PostBody.jsonBody (Json.obj [("user_question", Json.str q)]))).1
      = Except.ok { body := Json.obj [("status", Json.str "success"), ("result", R)], code := 200 }
    ∧ (ask_get predict (some gc) [("user_question", q)]).1
      = { body := Json.obj [("status", Json.str "success"), ("result", R)], code := 200 } := by
  constructor
  · simp [ask_sync, dictGet, lookupLast, _process_question, hp, jsonify]
  · simp [ask_get, List.lookup, _process_question, hp, jsonify]

/-- Witness for C1 at a concrete request and remote result. -/
theorem ask_success_returns_remote_result_witness :
    (ask_sync (fun _ => Except.ok (Json.str "SHL is a talent assessment company."))
        (some { space := HF_GRADIO_API_SPACE, hf_token := none })
        (PostBody.jsonBody (Json.obj [("user_question", Json.str "What is SHL?")]))).1
      = Except.ok { body := Json.obj [("status", Json.str "success"),
          ("result", Json.str "SHL is a talent assessment company.")], code := 200 }
    ∧ (ask_get (fun _ => Except.ok (Json.str "SHL is a talent assessment company."))
        (some { space := HF_GRADIO_API_SPACE, hf_token := none })
        [("user_question", "What is SHL?")]).1
      = { body := Json.obj [("status", Json.str "success"),
          ("result", Json.str "SHL is a talent assessment company.")], code := 200 } :=
  ask_success_returns_remote_result
    (fun _ => Except.ok (Json.str "SHL is a talent assessment company."))
    { space := HF_GRADIO_API_SPACE, hf_token := none }
    "What is SHL?" (Json.str "SHL is a talent assessment company.") rfl

/-- C2: when the client handle is `none`, every POST `/ask`, every GET
`/ask` and every `/health` request returns HTTP 503, and no predict call
is ever issued (the call trace is empty). -/
theorem client_none_always_503 (predict : PredictOracle) :
    (∀ body : PostBody,
      ask_sync predict none body
        = (Except.ok { body := errBody clientUnavailableMsg, code := 503 }, []))
    ∧ (∀ args : List (String × String),
      ask_get predict none args
        = ({ body := errBody clientUnavailableMsg, code := 503 }, []))
    ∧ health_check none
        = ({ body := Json.obj [("status", Json.str "error"),
            ("gradio_client_status", Json.str "not_initialized")], code := 503 }, []) :=
  ⟨fun _ => rfl, fun _ => rfl, rfl⟩

/-- C3: when the remote call raises an exception with any text `e`, the
handler returns the fixed 502 response whose message is the constant
`gradioFailureMsg`; the response is one constant independent of `e`, so
any two exceptions produce the identical caller-visible response and the
exception text never appears in it. -/
theorem remote_exception_masked (predict : PredictOracle) (gc : GradioClient)
    (q : Json) (e : String)
    (hp : predict { user_question := q, api_name := API_ENDPOINT } = Except.error e) :
    (_process_question predict (some gc) q).1
      = { body := errBody gradioFailureMsg, code := 502 } := by
  simp [_process_question, hp]

/-- Witness for C3 at a concrete exception text. -/
theorem remote_exception_masked_witness :
    (_process_question (fun _ => Except.error "ConnectionError: connection refused")
        (some { space := HF_GRADIO_API_SPACE, hf_token := none })
        (Json.str "What is SHL?")).1
      = { body := errBody gradioFailureMsg, code := 502 } :=
  remote_exception_masked (fun _ => Except.error "ConnectionError: connection refused")
    { space := HF_GRADIO_API_SPACE, hf_token := none }
    (Json.str "What is SHL?") "ConnectionError: connection refused" rfl

/-- C4 counterexample: with the client initialized, a POST whose JSON body
is the array `[]` lacks the key `user_question`, yet the handler does not
return 400: `data.get` raises `AttributeError`, which Flask turns into a
500 response. -/
theorem post_array_body_missing_key_not_400 :
    (ask_sync (fun _ => Except.error "unreached")
        (some { space := HF_GRADIO_API_SPACE, hf_token := none })
        (PostBody.jsonBody (Json.arr []))).1
      = Except.error PyExn.attributeError
    ∧ (flaskDispatch (ask_sync (fun _ => Except.error "unreached")
        (some { space := HF_GRADIO_API_SPACE, hf_token := none })
        (PostBody.jsonBody (Json.arr []))).1).code = 500 :=
  ⟨rfl, rfl⟩

/-- C4 (amended): with the client initialized, a POST whose JSON body is an
object lacking the key `user_question` returns HTTP 400 with the
explanatory message, a GET with no `user_question` query parameter returns
HTTP 400 with the explanatory message, and in both cases no predict call
is issued. -/
theorem missing_question_object_400 (predict : PredictOracle) (gc : GradioClient)
    (kvs : List (String × Json)) (args : List (String × String))
    (hk : lookupLast kvs "user_question" = none)
    (ha : args.lookup "user_question" = none) :
    ask_sync predict (some gc) (PostBody.jsonBody (Json.obj kvs))
      = (Except.ok { body := errBody missingKeyMsg, code := 400 }, [])
    ∧ ask_get predict (some gc) args
      = ({ body := errBody missingParamMsg, code := 400 }, []) := by
  constructor
  · simp [ask_sync, dictGet, hk]
  · simp [ask_get, ha]

/-- Witness for the amended C4 at concrete empty body and query string. -/
theorem missing_question_object_400_witness :
    lookupLast [] "user_question" = none
    ∧ List.lookup "user_question" ([] : List (String × String)) = none
    ∧ (ask_sync (fun _ => Except.ok Json.null)
          (some { space := HF_GRADIO_API_SPACE, hf_token := none })
          (PostBody.jsonBody (Json.obj []))
        = (Except.ok { body := errBody missingKeyMsg, code := 400 }, [])
      ∧ ask_get (fun _ => Except.ok Json.null)
          (some { space := HF_GRADIO_API_SPACE, hf_token := none }) []
        = ({ body := errBody missingParamMsg, code := 400 }, [])) :=
  ⟨rfl, rfl,
    missing_question_object_400 (fun _ => Except.ok Json.null)
      { space := HF_GRADIO_API_SPACE, hf_token := none } [] [] rfl rfl⟩

/-- C5: with the client initialized, a POST whose body is not JSON returns
HTTP 400 — both when the content type is not JSON (the handler answers)
and when a JSON content type fails to parse (Flask answers the raised
`BadRequest`) — and no predict call is issued. -/
theorem nonjson_post_400 (predict : PredictOracle) (gc : GradioClient) :
    (flaskDispatch (ask_sync predict (some gc) PostBody.notJson).1).code = 400
    ∧ (ask_sync predict (some gc) PostBody.notJson).2 = []
    ∧ (flaskDispatch (ask_sync predict (some gc) PostBody.malformedJson).1).code = 400
    ∧ (ask_sync predict (some gc) PostBody.malformedJson).2 = [] :=
  ⟨rfl, rfl, rfl, rfl⟩

/-- C6: the empty string is a valid question: with any remote behavior,
both a POST with `user_question` equal to `""` and a GET with
`user_question=` forward exactly the empty string to the predict call,
and neither returns HTTP 400. -/
theorem empty_question_accepted (predict : PredictOracle) (gc : GradioClient) :
    (ask_sync predict (some gc) (PostBody.jsonBody (Json.obj [("user_question", Json.str "")]))).2
      = [{ user_question := Json.str "", api_name := API_ENDPOINT }]
    ∧ (ask_get predict (some gc) [("user_question", "")]).2
      = [{ user_question := Json.str "", api_name := API_ENDPOINT }]
    ∧ (flaskDispatch (ask_sync predict (some gc)
        (PostBody.jsonBody (Json.obj [("user_question", Json.str "")]))).1).code ≠ 400
    ∧ (ask_get predict (some gc) [("user_question", "")]).1.code ≠ 400 := by
  cases hpc : predict { user_question := Json.str "", api_name := API_ENDPOINT } with
  | ok r =>
    refine ⟨?_, ?_, ?_, ?_⟩ <;>
      simp [ask_sync, ask_get, _process_question, dictGet, lookupLast, List.lookup,
        flaskDispatch, jsonify, hpc]
  | error e =>
    refine ⟨?_, ?_, ?_, ?_⟩ <;>
      simp [ask_sync, ask_get, _process_question, dictGet, lookupLast, List.lookup,
        flaskDispatch, jsonify, hpc]

/-- C7: `/health` returns HTTP 200 with `status = "ok"` and
`gradio_client_status = "initialized"` exactly when the client handle was
constructed, and HTTP 503 with `status = "error"` and
`gradio_client_status = "not_initialized"` otherwise; in neither case is a
predict call issued. -/
theorem health_check_reports_client_state :
    (∀ gc : GradioClient,
      health_check (some gc)
        = ({ body := Json.obj [("status", Json.str "ok"),
            ("gradio_client_status", Json.str "initialized")], code := 200 }, []))
    ∧ health_check none
        = ({ body := Json.obj [("status", Json.str "error"),
            ("gradio_client_status", Json.str "not_initialized")], code := 503 }, []) :=
  ⟨fun _ => rfl, rfl⟩

/-- C8: the shared client handle is read-only after startup: serving any
sequence of requests, with any remote behavior, leaves it exactly as it
was, whether initialized or `none`. -/
theorem gradio_client_read_only (predict : PredictOracle)
    (gradio_client : Option GradioClient) (reqs : List Request) :
    runRequests predict gradio_client reqs = gradio_client := by
  induction reqs generalizing gradio_client with
  | nil => rfl
  | cons req rest ih => cases req <;> simp [runRequests, handle, ih]

/-- C9: with the client handle `none`, the client check comes before any
request validation, so a non-JSON POST body, a malformed JSON body, and
any parsed JSON body (with or without the key) all get the 503 response,
never a 400. -/
theorem client_check_precedes_validation (predict : PredictOracle) :
    ask_sync predict none PostBody.notJson
      = (Except.ok { body := errBody clientUnavailableMsg, code := 503 }, [])
    ∧ ask_sync predict none PostBody.malformedJson
      = (Except.ok { body := errBody clientUnavailableMsg, code := 503 }, [])
    ∧ (∀ data : Json,
      ask_sync predict none (PostBody.jsonBody data)
        = (Except.ok { body := errBody clientUnavailableMsg, code := 503 }, []))
    ∧ (∀ body : PostBody,
      (flaskDispatch (ask_sync predict none body).1).code ≠ 400) :=
  ⟨rfl, rfl, fun _ => rfl, fun _ => by simp [ask_sync, flaskDispatch]⟩

/-- C10: GET and POST `/ask` are equivalent after question extraction:
for every question string, client state and remote behavior, the GET
handler on `user_question=q` equals the shared `_process_question` on `q`,
and the POST handler on a body binding `user_question` to `q` returns the
same response and the same predict-call trace. -/
theorem get_post_equivalent_after_extraction (predict : PredictOracle)
    (gradio_client : Option GradioClient) (q : String) :
    ask_get predict gradio_client [("user_question", q)]
      = _process_question predict gradio_client (Json.str q)
    ∧ ask_sync predict gradio_client (PostBody.jsonBody (Json.obj [("user_question", Json.str q)]))
      = (Except.ok (_process_question predict gradio_client (Json.str q)).1,
         (_process_question predict gradio_client (Json.str q)).2) := by
  cases gradio_client with
  | none => exact ⟨rfl, rfl⟩
  | some gc =>
    constructor
    · simp [ask_get, List.lookup]
    · simp [ask_sync, dictGet, lookupLast]

end BackendRag
